import Mathlib

/-!
# Verification of the `whyimpulse` browser client

Shallow embedding of the client-side pipeline of the `whyimpulse`
repository: the chrome-extension scripts (`popup.js`, `content.js`,
`background.js`) and the single-page web app (`frontend/src/App.js`).

JavaScript strings are modelled as Lean `String` (compared through their
character lists), JS numbers appearing as integer scores as `Int`, and JS
numbers appearing as prices/percentages as `ℚ`, with the one partial
operation — floating-point division, which yields a non-finite value (NaN)
when the divisor is zero and the numerator is zero — modelled as an
`Option ℚ` returning `none` on a zero divisor.  Fallible rendering
(member access on a possibly-`undefined` value, which throws a
`TypeError`) is modelled with `Except String`.
-/

namespace WhyImpulse

/-! ## JS string primitives

`String.prototype.includes`, `String.prototype.toLowerCase` (ASCII case
fold, which is all the verdict strings exercise) and the blank test
`!s.trim()` are modelled over character lists. -/

/-- `listIsInfix pat s` is `true` iff `pat` occurs contiguously inside `s`
(the semantics of JS `s.includes(pat)` at character level). -/
def listIsInfix (pat : List Char) : List Char → Bool
  | [] => pat.isEmpty
  | c :: rest => pat.isPrefixOf (c :: rest) || listIsInfix pat rest

/-- JS `s.includes(pat)`. -/
def strIncludes (s pat : String) : Bool := listIsInfix pat.toList s.toList

/-- ASCII lower-casing of one character (JS `toLowerCase` restricted to
ASCII, which covers every string the client compares). -/
def toLowerChar (c : Char) : Char :=
  if 65 ≤ c.toNat ∧ c.toNat ≤ 90 then Char.ofNat (c.toNat + 32) else c

/-- JS `s.toLowerCase()` (ASCII). -/
def strToLower (s : String) : String := ⟨s.toList.map toLowerChar⟩

/-- JS `!s.trim()`: the string is empty or consists only of whitespace. -/
def isBlank (s : String) : Bool := s.toList.all Char.isWhitespace

/-! ## Data model (§3 of the spec; consumed read-only from the endpoint) -/

/-- `product_data` field of `AnalysisResult`. -/
structure ProductSummary where
  title : String
  price : Option String
  rating : Option ℚ
  review_count : Option String
  availability : Option String
  image_url : Option String
deriving Repr

/-- Optional `deal_analysis` field of `AnalysisResult`. -/
structure DealAnalysis where
  quality : String
  score : Int
  analysis : String
  current_price : ℚ
  average_price : ℚ
  min_price : ℚ
  max_price : ℚ
  percentile : ℚ
  savings_percent : ℚ
deriving Repr

/-- Optional `inflation_analysis` field of `AnalysisResult`. -/
structure InflationAnalysis where
  inflation_detected : Bool
  analysis : String
deriving Repr

/-- One entry of the ordered `price_history` sequence. -/
structure PricePoint where
  date : String
  price : ℚ
deriving Repr

/-- The analysis payload returned by the remote endpoint (fields the
client dereferences; `deal_analysis` / `inflation_analysis` /
`price_history` are optional in the payload, hence `Option`). -/
structure AnalysisResult where
  url : String
  asin : String
  affiliate_link : String
  product_data : ProductSummary
  verdict : String
  impulse_score : Int
  confidence_score : Int
  impulse_factors : List (String × Int)
  deal_analysis : Option DealAnalysis
  inflation_analysis : Option InflationAnalysis
  price_history : Option (List PricePoint)
  alternatives : List String
  pros : List String
  cons : List String
  recommendation : String
deriving Repr

/-- Outcome of the single `fetch`/`axios` POST to `{base}/api/analyze`,
as observed by the client code: a 2xx response with a parsed
`AnalysisResult` body, a non-2xx response whose JSON body may or may not
carry a `detail` field, or any exception raised inside the `try` block
(network fault, malformed JSON, or an error thrown while rendering). -/
inductive FetchResult where
  | ok (data : AnalysisResult)
  | httpError (status : Nat) (detail : Option String)
  | jsError (msg : String)

/-! ## Domain Classifier (§4.1)

`popup.js` lines 78–84 and `background.js` lines 86–92 each define an
identical `isAmazonURL`; the web app inlines `url.includes('amazon.')`
at `App.js` line 20. -/

namespace Popup

/-- Allow-list of `popup.js` lines 79–82. -/
def amazonDomains : List String :=
  ["amazon.com", "amazon.co.uk", "amazon.ca", "amazon.de",
   "amazon.fr", "amazon.it", "amazon.es", "a.co", "amzn.to"]

/-- `popup.js` lines 78–84: `amazonDomains.some(domain => url.includes(domain))`. -/
def isAmazonURL (url : String) : Bool :=
  amazonDomains.any (fun domain => strIncludes url domain)

end Popup

namespace Background

/-- Allow-list of `background.js` lines 87–90. -/
def amazonDomains : List String :=
  ["amazon.com", "amazon.co.uk", "amazon.ca", "amazon.de",
   "amazon.fr", "amazon.it", "amazon.es", "a.co", "amzn.to"]

/-- `background.js` lines 86–92. -/
def isAmazonURL (url : String) : Bool :=
  amazonDomains.any (fun domain => strIncludes url domain)

end Background

namespace Frontend

/-- The web app's inline domain check, `App.js` line 20:
`url.includes('amazon.')`. -/
def urlDomainCheck (url : String) : Bool := strIncludes url "amazon."

end Frontend

/-! ## Result Presentation Mapper (§4.5) -/

namespace Popup

/-- `popup.js` lines 138–139: verdict → CSS class; `buy`, else `wait`,
else `skip` (there is no fourth bucket in this surface). -/
def verdictClass (verdict : String) : String :=
  if strIncludes (strToLower verdict) "buy" then "buy"
  else if strIncludes (strToLower verdict) "wait" then "wait"
  else "skip"

/-- `popup.js` lines 207–212 (`getScoreColor`). -/
def getScoreColor (score : Int) : String :=
  if 80 ≤ score then "#f44336"
  else if 60 ≤ score then "#ff9800"
  else if 40 ≤ score then "#ffc107"
  else "#4caf50"

/-- `popup.js` lines 215–220 (`getScoreText`). -/
def getScoreText (score : Int) : String :=
  if 80 ≤ score then "High Risk"
  else if 60 ≤ score then "Medium Risk"
  else if 40 ≤ score then "Low Risk"
  else "Safe Purchase"

/-- `popup.js` line 157: the score bar is styled
`width: ${data.impulse_score}%` — the interpolated percentage is the raw
score, with no clamping. -/
def scoreFillWidth (score : Int) : Int := score

end Popup

namespace Content

/-- `content.js` lines 122–123: same three-way verdict mapping as the
popup (`buy` / `wait` / else `skip`). -/
def verdictClass (verdict : String) : String :=
  if strIncludes (strToLower verdict) "buy" then "buy"
  else if strIncludes (strToLower verdict) "wait" then "wait"
  else "skip"

/-- `content.js` lines 125–127: inline score colour ternary. -/
def scoreColor (score : Int) : String :=
  if 80 ≤ score then "#f44336"
  else if 60 ≤ score then "#ff9800"
  else if 40 ≤ score then "#ffc107"
  else "#4caf50"

/-- `content.js` line 144: `width: ${data.impulse_score}%`, unclamped. -/
def scoreFillWidth (score : Int) : Int := score

end Content

namespace Frontend

/-- `App.js` lines 49–55 (`getVerdictStyle`): four-way mapping with a
grey fallback bucket. -/
def getVerdictStyle (verdict : String) : String :=
  if strIncludes (strToLower verdict) "buy" then "bg-green-500 text-white"
  else if strIncludes (strToLower verdict) "wait" then "bg-yellow-500 text-white"
  else if strIncludes (strToLower verdict) "skip" then "bg-red-500 text-white"
  else "bg-gray-500 text-white"

/-- `App.js` lines 42–47 (`getScoreColor`). -/
def getScoreColor (score : Int) : String :=
  if 80 ≤ score then "text-red-600 bg-red-100"
  else if 60 ≤ score then "text-orange-600 bg-orange-100"
  else if 40 ≤ score then "text-yellow-600 bg-yellow-100"
  else "text-green-600 bg-green-100"

/-- `App.js` lines 57–66 (`getDealQualityColor`). -/
def getDealQualityColor (quality : String) : String :=
  if quality = "excellent" then "bg-green-500 text-white"
  else if quality = "very good" then "bg-green-400 text-white"
  else if quality = "good" then "bg-blue-500 text-white"
  else if quality = "fair" then "bg-yellow-500 text-white"
  else if quality = "poor" then "bg-red-500 text-white"
  else "bg-gray-500 text-white"

/-- `App.js` lines 68–73: `Intl.NumberFormat('en-US', USD)` — the locale
machinery is external; modelled as a dollar prefix. -/
def formatCurrency (amount : ℚ) : String := "$" ++ toString amount

/-- `App.js` line 548: the impulse-score bar is styled
`width: ${analysis.impulse_score}%` — raw, unclamped. -/
def scoreFillWidth (score : Int) : Int := score

/-- `App.js` line 132: `impulseFactors[factor.key] || 0` (a missing key —
and a zero value, zero being falsy — yields 0). -/
def factorValue (impulseFactors : List (String × Int)) (key : String) : Int :=
  ((impulseFactors.lookup key).getD 0)

/-- `App.js` lines 133–134: `percentage = (factorValue / maxValue) * 100`
with `maxValue = 30`. -/
def factorPercentage (v : Int) : ℚ := ((v : ℚ) / 30) * 100

/-- `App.js` line 146: `width: ${Math.max(5, percentage)}%` — a 5%
visibility floor, and no ceiling. -/
def factorBarWidth (v : Int) : ℚ := max 5 (factorPercentage v)

end Frontend

/-! ## Price-history chart (`App.js` lines 75–113)

JS float division is modelled by `jsDiv`: on the flat-history and
single-point inputs the code divides zero by zero, which is NaN in JS;
`jsDiv` returns `none` exactly when the divisor is zero, so a `none`
coordinate marks a non-finite (NaN) position. -/

/-- Division as the chart code uses it: `none` when the divisor is 0
(the JS result there, 0/0, is NaN — no finite value). -/
def jsDiv (a b : ℚ) : Option ℚ := if b = 0 then none else some (a / b)

namespace Frontend

/-- `App.js` line 78: `Math.max(...priceHistory.map(p => p.price))`. -/
def maxPrice : List ℚ → ℚ
  | [] => 0
  | p :: ps => ps.foldl max p

/-- `App.js` line 79: `Math.min(...)`. -/
def minPrice : List ℚ → ℚ
  | [] => 0
  | p :: ps => ps.foldl min p

/-- `App.js` line 80: `priceRange = maxPrice - minPrice`. -/
def priceRange (prices : List ℚ) : ℚ := maxPrice prices - minPrice prices

/-- `App.js` line 94: `x = (index / (priceHistory.length - 1)) * 100`. -/
def chartX (index len : ℕ) : Option ℚ :=
  (jsDiv (index : ℚ) ((len : ℚ) - 1)).map (fun t => t * 100)

/-- `App.js` line 95:
`y = 100 - ((point.price - minPrice) / priceRange) * 100`. -/
def chartY (price minP range : ℚ) : Option ℚ :=
  (jsDiv (price - minP) range).map (fun t => 100 - t * 100)

/-- The full point list of the `polyline` (`App.js` lines 93–97). -/
def chartPoints (ph : List PricePoint) : List (Option ℚ × Option ℚ) :=
  let prices := ph.map PricePoint.price
  (List.range ph.length).map fun i =>
    (chartX i ph.length,
     chartY ((ph.getD i ⟨"", 0⟩).price) (minPrice prices) (priceRange prices))

end Frontend

/-! ## Analysis Request Pipeline (§4.4), one embedding per UI surface.

Each pipeline takes the `FetchResult` the network would produce as an
explicit argument and returns what the surface did: how many POSTs were
issued, what was displayed, and the terminal interactivity of the
triggering control. `try`/`catch`/`finally` becomes case analysis on the
`FetchResult` with the `finally` assignments applied on every branch. -/

namespace Popup

/-- What the popup displays at the end of a run. -/
inductive View where
  | results (data : AnalysisResult)
  | error (msg : String)
deriving Repr

/-- One run of `popup.js` `analyzeProduct` (lines 87–119). -/
structure Run where
  networkCalls : Nat
  view : View
  /-- `loadingSection` visibility when the run terminates; `finally`
  (line 117) calls `hideLoading()`. -/
  loadingAtEnd : Bool

/-- `popup.js` lines 87–119. The guard (lines 88–91) returns before the
`fetch`; otherwise the single POST is issued and the response handled:
a non-ok response throws `errorData.detail || 'Analysis failed'`, and
the `catch` shows `Analysis failed: ${error.message}`. -/
def analyzeProduct (url : String) (resp : FetchResult) : Run :=
  if isAmazonURL url = false then
    { networkCalls := 0, view := .error "Please provide a valid Amazon URL",
      loadingAtEnd := false }
  else
    match resp with
    | .ok data =>
        { networkCalls := 1, view := .results data, loadingAtEnd := false }
    | .httpError _ (some d) =>
        { networkCalls := 1, view := .error ("Analysis failed: " ++ d),
          loadingAtEnd := false }
    | .httpError _ none =>
        { networkCalls := 1, view := .error "Analysis failed: Analysis failed",
          loadingAtEnd := false }
    | .jsError m =>
        { networkCalls := 1, view := .error ("Analysis failed: " ++ m),
          loadingAtEnd := false }

end Popup

namespace Frontend

/-- The early-return validation of `App.js` lines 15–23: the error
message set, or `none` when the URL passes both checks. -/
def validateUrl (url : String) : Option String :=
  if isBlank url then some "Please enter an Amazon URL"
  else if urlDomainCheck url = false then some "Please enter a valid Amazon URL"
  else none

/-- One run of the web app's `analyzeProduct` (`App.js` lines 14–40). -/
structure Run where
  networkCalls : Nat
  analysis : Option AnalysisResult
  /-- The `error` state; `""` plays the role of "no error" as in the
  source (`setError("")`). -/
  error : String
  /-- The `loading` state when the run terminates; `finally` (line 38)
  calls `setLoading(false)`. -/
  loadingAtEnd : Bool

/-- `App.js` lines 14–40: validation short-circuits with zero network
calls; otherwise one `axios.post`, with
`error.response?.data?.detail || "Failed to analyze product. Please try again."`
on rejection. -/
def analyzeProduct (url : String) (resp : FetchResult) : Run :=
  match validateUrl url with
  | some e =>
      { networkCalls := 0, analysis := none, error := e, loadingAtEnd := false }
  | none =>
      match resp with
      | .ok data =>
          { networkCalls := 1, analysis := some data, error := "",
            loadingAtEnd := false }
      | .httpError _ (some d) =>
          { networkCalls := 1, analysis := none, error := d,
            loadingAtEnd := false }
      | .httpError _ none =>
          { networkCalls := 1, analysis := none,
            error := "Failed to analyze product. Please try again.",
            loadingAtEnd := false }
      | .jsError _ =>
          { networkCalls := 1, analysis := none,
            error := "Failed to analyze product. Please try again.",
            loadingAtEnd := false }

end Frontend

namespace Content

/-- What the in-page results panel shows. -/
inductive PanelView where
  | results (data : AnalysisResult)
  | error (msg : String)
deriving Repr

/-- One run of `content.js` `analyzeCurrentProduct` (lines 71–115). -/
structure Run where
  networkCalls : Nat
  /-- `button.style.pointerEvents` while the fetch is in flight: set to
  `'none'` (non-interactive) at line 84 before the `try`. -/
  buttonInteractiveDuringFetch : Bool
  panel : PanelView
  /-- `button.style.pointerEvents` after the `finally` (line 113):
  `'auto'` on every exit path. -/
  buttonInteractiveAtEnd : Bool

/-- `content.js` lines 71–115: a non-ok response throws the fixed string
`'Analysis failed'` (line 96) — the body's `detail` is never read — and
the `catch` shows the fixed message `'Analysis failed. Please try
again.'`; the `finally` re-enables the button unconditionally. -/
def analyzeCurrentProduct (resp : FetchResult) : Run :=
  let panel : PanelView :=
    match resp with
    | .ok data => .results data
    | .httpError _ _ => .error "Analysis failed. Please try again."
    | .jsError _ => .error "Analysis failed. Please try again."
  { networkCalls := 1, buttonInteractiveDuringFetch := false,
    panel := panel, buttonInteractiveAtEnd := true }

end Content

namespace Background

/-- The message-relay response sent back to the content script
(`{success, data}` or `{success:false, error}`). -/
structure RelayResponse where
  success : Bool
  data : Option AnalysisResult
  error : Option String

/-- `background.js` lines 31–50 (`handleProductAnalysis`): a non-ok
response throws the fixed `'Analysis failed'` (line 42) — the `detail`
of the body is never read. -/
def handleProductAnalysis (resp : FetchResult) : RelayResponse :=
  match resp with
  | .ok data => { success := true, data := some data, error := none }
  | .httpError _ _ => { success := false, data := none, error := some "Analysis failed" }
  | .jsError m => { success := false, data := none, error := some m }

end Background

/-! ## Navigation Watcher (`content.js` lines 196–209)

The `MutationObserver` callback reads `location.href`; on a changed URL
it updates `lastUrl` and calls `setTimeout(showAnalyzeButton, 1000)`.
`pendingTimers` counts the scheduled, not-yet-fired timeouts. -/

namespace Content

/-- State of the watcher: the last observed URL and the number of
`setTimeout(showAnalyzeButton, 1000)` callbacks scheduled but not yet
fired. -/
structure WatcherState where
  lastUrl : String
  pendingTimers : Nat
deriving Repr, DecidableEq

/-- One firing of the `MutationObserver` callback (`content.js` lines
202–208) with current `location.href = url`. No `clearTimeout` appears
anywhere in the source: a changed URL always schedules an additional
timeout. -/
def observeMutation (s : WatcherState) (url : String) : WatcherState :=
  if url ≠ s.lastUrl then
    { lastUrl := url, pendingTimers := s.pendingTimers + 1 }
  else s

/-- One scheduled timeout firing (running `showAnalyzeButton`). -/
def fireTimer (s : WatcherState) : WatcherState :=
  { s with pendingTimers := s.pendingTimers - 1 }

end Content

/-! ## Web-app success rendering (`App.js` lines 440–632)

The success block renders its sections in order; `DealAnalysisCard` is
instantiated unconditionally (lines 532–535) and its body dereferences
`dealAnalysis.quality` (line 307) and `inflationAnalysis.inflation_detected`
(line 360). A member access on an `undefined` value throws a `TypeError`,
aborting the whole render: modelled with `Except String`. -/

namespace Frontend

/-- `App.js` lines 296–373 (`DealAnalysisCard`). The first dereference of
`dealAnalysis` is `.quality` at line 307; the first (and only)
dereference of `inflationAnalysis` is `.inflation_detected` at line 360.
Either operand being `undefined` throws. -/
def DealAnalysisCard (dealAnalysis : Option DealAnalysis)
    (inflationAnalysis : Option InflationAnalysis) : Except String String :=
  match dealAnalysis with
  | none => .error "TypeError: cannot read quality of undefined"
  | some da =>
    match inflationAnalysis with
    | none => .error "TypeError: cannot read inflation_detected of undefined"
    | some ia =>
      .ok ("deal:" ++ getDealQualityColor da.quality ++ ":" ++ toString da.score
        ++ ":" ++ formatCurrency da.current_price
        ++ ":" ++ formatCurrency da.average_price
        ++ (if ia.inflation_detected then ":inflation:" ++ ia.analysis else ""))

/-- Product-overview section (`App.js` lines 450–527): title, verdict
badge, confidence — all required fields, total. -/
def overviewSection (a : AnalysisResult) : String :=
  a.product_data.title ++ "|" ++ getVerdictStyle a.verdict ++ "|"
    ++ toString a.confidence_score

/-- Impulse-score card (`App.js` lines 538–558). -/
def scoreSection (a : AnalysisResult) : String :=
  getScoreColor a.impulse_score ++ "|" ++ toString (scoreFillWidth a.impulse_score)

/-- Factor-breakdown card (`App.js` lines 115–170, instantiated at
lines 567–570). -/
def factorsSection (a : AnalysisResult) : String :=
  String.intercalate ","
    ((["price_manipulation", "scarcity_tactics", "emotional_triggers",
       "urgency_language", "deal_authenticity", "volatility_factor"]).map
      fun k => toString (factorBarWidth (factorValue a.impulse_factors k)))

/-- The whole success block (`App.js` lines 440–632): every section in
order; only `DealAnalysisCard` can throw, and its failure aborts the
render. `PriceHistoryChart` and `AlternativesSection` return `null` on
missing/empty input (lines 76, 173) and are total. -/
def renderAnalysis (a : AnalysisResult) : Except String (List String) :=
  match DealAnalysisCard a.deal_analysis a.inflation_analysis with
  | .error e => .error e
  | .ok dealCard =>
    .ok [overviewSection a, dealCard, scoreSection a, factorsSection a,
         String.intercalate ";" a.pros, String.intercalate ";" a.cons,
         a.recommendation]

end Frontend

/-! ## Concrete test fixtures used by witnesses and counterexamples -/

/-- A URL that passes every surface's classifier. -/
def amazonTestUrl : String := "https://www.amazon.com/dp/B0TEST00"

/-- A well-formed payload for the fixtures. -/
def sampleSummary : ProductSummary :=
  { title := "Sample Product", price := some "$19.99", rating := some 4,
    review_count := some "1,000 reviews", availability := some "In Stock",
    image_url := none }

/-- An `AnalysisResult` whose optional `deal_analysis` field is absent. -/
def sampleNoDeal : AnalysisResult :=
  { url := amazonTestUrl, asin := "B0TEST00",
    affiliate_link := "https://amzn.to/x", product_data := sampleSummary,
    verdict := "WAIT - price may drop", impulse_score := 72,
    confidence_score := 80,
    impulse_factors := [("price_manipulation", 20), ("scarcity_tactics", 10)],
    deal_analysis := none,
    inflation_analysis := some { inflation_detected := false, analysis := "" },
    price_history := none, alternatives := [], pros := ["good price"],
    cons := ["impulse risk"], recommendation := "wait a week" }

/-! # Theorems

First the general lemmas about the embedded primitives, then one theorem
(plus counterexample / witness where required) per claim. -/

/-- `listIsInfix` really is contiguous-substring containment. -/
theorem listIsInfix_iff (pat : List Char) (s : List Char) :
    listIsInfix pat s = true ↔ ∃ l r, s = l ++ pat ++ r := by
  induction s with
  | nil =>
    simp only [listIsInfix, List.isEmpty_iff]
    constructor
    · rintro rfl; exact ⟨[], [], rfl⟩
    · rintro ⟨l, r, h⟩
      have h1 := List.append_eq_nil.mp h.symm
      exact (List.append_eq_nil.mp h1.1).2
  | cons c cs ih =>
    simp only [listIsInfix, Bool.or_eq_true, List.isPrefixOf_iff_prefix, ih]
    constructor
    · rintro (⟨t, ht⟩ | ⟨l, r, rfl⟩)
      · exact ⟨[], t, by simpa using ht.symm⟩
      · exact ⟨c :: l, r, rfl⟩
    · rintro ⟨l, r, h⟩
      cases l with
      | nil => exact Or.inl ⟨r, by simpa using h.symm⟩
      | cons x xs =>
        right
        refine ⟨xs, r, ?_⟩
        have hc := h
        simp only [List.cons_append] at hc
        exact (List.cons.injEq .. ▸ hc).2

/-- The initial accumulator bounds a `foldl max`. -/
theorem le_foldl_max (l : List ℚ) (a : ℚ) : a ≤ l.foldl max a := by
  induction l generalizing a with
  | nil => exact le_refl a
  | cons x xs ih => exact le_trans (le_max_left a x) (ih (max a x))

/-- Every member bounds a `foldl max` from below. -/
theorem mem_le_foldl_max (l : List ℚ) (a q : ℚ) (h : q ∈ l) :
    q ≤ l.foldl max a := by
  induction l generalizing a with
  | nil => cases h
  | cons x xs ih =>
    rcases List.mem_cons.mp h with rfl | hq
    · exact le_trans (le_max_right a q) (le_foldl_max xs (max a q))
    · exact ih (max a x) hq

/-- The initial accumulator bounds a `foldl min` from below. -/
theorem foldl_min_le (l : List ℚ) (a : ℚ) : l.foldl min a ≤ a := by
  induction l generalizing a with
  | nil => exact le_refl a
  | cons x xs ih => exact le_trans (ih (min a x)) (min_le_left a x)

/-- A `foldl min` is below every member. -/
theorem foldl_min_le_mem (l : List ℚ) (a q : ℚ) (h : q ∈ l) :
    l.foldl min a ≤ q := by
  induction l generalizing a with
  | nil => cases h
  | cons x xs ih =>
    rcases List.mem_cons.mp h with rfl | hq
    · exact le_trans (foldl_min_le xs (min a q)) (min_le_right a q)
    · exact ih (min a x) hq

/-- `minPrice` is a lower bound on the members. -/
theorem minPrice_le_mem (prices : List ℚ) (q : ℚ) (h : q ∈ prices) :
    Frontend.minPrice prices ≤ q := by
  cases prices with
  | nil => cases h
  | cons p ps =>
    rcases List.mem_cons.mp h with rfl | hq
    · exact foldl_min_le ps q
    · exact foldl_min_le_mem ps p q hq

/-- `maxPrice` is an upper bound on the members. -/
theorem mem_le_maxPrice (prices : List ℚ) (q : ℚ) (h : q ∈ prices) :
    q ≤ Frontend.maxPrice prices := by
  cases prices with
  | nil => cases h
  | cons p ps =>
    rcases List.mem_cons.mp h with rfl | hq
    · exact le_foldl_max ps q
    · exact mem_le_foldl_max ps p q hq

/-! ## Claim C3 -/

/-- Claim C3 fails as stated: the URL `https://a.co/d/0` contains the
allow-listed substring `a.co`, so the popup classifier accepts it, but
the web app's check (`url.includes('amazon.')`) rejects it — the
eligibility predicate is not uniform across the three surfaces. -/
theorem C3_counterexample :
    Popup.isAmazonURL "https://a.co/d/0" = true ∧
    Frontend.urlDomainCheck "https://a.co/d/0" = false ∧
    Background.isAmazonURL "https://a.co/d/0" = true := by
  refine ⟨by decide, by decide, by decide⟩

/-- Claim C3 (amended): the background and popup predicates are the same
function, returning `true` exactly when the URL contains one of the nine
allow-listed domains as a contiguous substring; the web app's check
instead tests only for the single substring `amazon.`, so the uniformity
holds between background and popup but not on the web app surface. -/
theorem C3_amended (url : String) :
    Background.isAmazonURL url = Popup.isAmazonURL url ∧
    (Popup.isAmazonURL url = true ↔
      ∃ d ∈ Popup.amazonDomains, ∃ l r, url.toList = l ++ d.toList ++ r) ∧
    (Frontend.urlDomainCheck url = true ↔
      ∃ l r, url.toList = l ++ "amazon.".toList ++ r) := by
  refine ⟨rfl, ?_, ?_⟩
  · rw [Popup.isAmazonURL, List.any_eq_true]
    constructor
    · rintro ⟨d, hd, hinc⟩
      exact ⟨d, hd, (listIsInfix_iff d.toList url.toList).mp hinc⟩
    · rintro ⟨d, hd, h⟩
      exact ⟨d, hd, (listIsInfix_iff d.toList url.toList).mpr h⟩
  · exact listIsInfix_iff "amazon.".toList url.toList

/-- Concrete instance of `C3_amended` at an allow-listed URL. -/
theorem C3_amended_witness :
    Background.isAmazonURL "https://amazon.de/dp/B1" =
      Popup.isAmazonURL "https://amazon.de/dp/B1" ∧
    Popup.isAmazonURL "https://amazon.de/dp/B1" = true :=
  ⟨(C3_amended "https://amazon.de/dp/B1").1,
   (C3_amended "https://amazon.de/dp/B1").2.1.mpr
     ⟨"amazon.de", by decide,
      "https://".toList, "/dp/B1".toList, by decide⟩⟩

/-! ## Claim C1 -/

/-- Claim C1 fails as stated: `https://amazon.nl/dp/B0` contains none of
the allow-listed domain substrings (the popup classifier rejects it), yet
the web app's `analyzeProduct` — whose guard only tests for the substring
`amazon.` — issues the POST for it. -/
theorem C1_counterexample :
    Popup.isAmazonURL "https://amazon.nl/dp/B0" = false ∧
    (Frontend.analyzeProduct "https://amazon.nl/dp/B0"
        (.jsError "network down")).networkCalls = 1 := by
  refine ⟨by decide, rfl⟩

/-- Claim C1 (amended): each surface fails fast, with a validation error
and zero network calls, on a URL rejected by its own guard — the popup
when the URL contains no allow-listed domain, the web app when the URL is
blank or lacks the substring `amazon.`; but the web app's guard is not
the allow-list, so a URL with no allow-listed domain that does contain
`amazon.` (e.g. `amazon.nl`) is still POSTed by the web app. -/
theorem C1_amended (url : String) (resp : FetchResult) :
    (Popup.isAmazonURL url = false →
      (Popup.analyzeProduct url resp).networkCalls = 0 ∧
      (Popup.analyzeProduct url resp).view
        = .error "Please provide a valid Amazon URL") ∧
    (∀ e, Frontend.validateUrl url = some e →
      (Frontend.analyzeProduct url resp).networkCalls = 0 ∧
      (Frontend.analyzeProduct url resp).analysis = none ∧
      (Frontend.analyzeProduct url resp).error = e) := by
  constructor
  · intro h
    simp [Popup.analyzeProduct, h]
  · intro e he
    simp [Frontend.analyzeProduct, he]

/-- Concrete instance of `C1_amended`: a non-marketplace URL triggers the
fail-fast path with zero network calls on both surfaces. -/
theorem C1_amended_witness :
    (Popup.analyzeProduct "https://example.org/page"
      (.jsError "network down")).networkCalls = 0 ∧
    (Frontend.analyzeProduct "https://example.org/page"
      (.jsError "network down")).networkCalls = 0 := by
  refine ⟨((C1_amended "https://example.org/page" (.jsError "network down")).1
    (by decide)).1, ?_⟩
  exact ((C1_amended "https://example.org/page" (.jsError "network down")).2
    "Please enter a valid Amazon URL" (by decide)).1

/-! ## Claim C2 -/

/-- Claim C2 fails as stated: on an HTTP 500 whose body carries
`detail = "rate limited"`, the content-script surface shows the fixed
generic message and the background relay returns the fixed generic error
— neither carries the server-supplied detail. -/
theorem C2_counterexample :
    (Content.analyzeCurrentProduct (.httpError 500 (some "rate limited"))).panel
      = .error "Analysis failed. Please try again." ∧
    (Background.handleProductAnalysis (.httpError 500 (some "rate limited"))).error
      = some "Analysis failed" := ⟨rfl, rfl⟩

/-- Claim C2 (amended): on a non-2xx response, the web app surfaces the
server-supplied detail verbatim when present and a generic message
otherwise; the popup surfaces the detail prefixed with `Analysis
failed: `; the content script and the background relay always produce a
fixed generic message, discarding any detail. -/
theorem C2_amended (st : Nat) (d : String) :
    (Frontend.analyzeProduct amazonTestUrl (.httpError st (some d))).error = d ∧
    (Frontend.analyzeProduct amazonTestUrl (.httpError st none)).error
      = "Failed to analyze product. Please try again." ∧
    (Popup.analyzeProduct amazonTestUrl (.httpError st (some d))).view
      = .error ("Analysis failed: " ++ d) ∧
    (Popup.analyzeProduct amazonTestUrl (.httpError st none)).view
      = .error "Analysis failed: Analysis failed" ∧
    (Content.analyzeCurrentProduct (.httpError st (some d))).panel
      = .error "Analysis failed. Please try again." ∧
    (Background.handleProductAnalysis (.httpError st (some d))).error
      = some "Analysis failed" := by
  have hv : Frontend.validateUrl amazonTestUrl = none := by decide
  have hp : Popup.isAmazonURL amazonTestUrl = true := by decide
  refine ⟨?_, ?_, ?_, ?_, rfl, rfl⟩ <;>
    simp [Frontend.analyzeProduct, Popup.analyzeProduct, hv, hp]

/-- Concrete instance of `C2_amended` at status 500, detail
`rate limited`. -/
theorem C2_amended_witness :
    (Frontend.analyzeProduct amazonTestUrl
      (.httpError 500 (some "rate limited"))).error = "rate limited" :=
  (C2_amended 500 "rate limited").1

/-! ## Claim C4 -/

/-- Claim C4 fails as stated: the verdict `hold` contains none of
`buy` / `wait` / `skip`, and on the extension surfaces (popup and
content script) it maps to the `skip` bucket — there is no `Unknown`
fallback there; only the web app yields the grey fallback. -/
theorem C4_counterexample :
    Content.verdictClass "hold" = "skip" ∧
    Popup.verdictClass "hold" = "skip" ∧
    Frontend.getVerdictStyle "hold" = "bg-gray-500 text-white" := by
  refine ⟨by decide, by decide, by decide⟩

/-- Claim C4 (amended): every surface tests case-insensitively for
`buy` first, then `wait`, then `skip`, first match winning; the web app
has a fourth, grey `Unknown` bucket for a verdict containing none of the
three, while the popup and content script collapse that case into the
`skip` bucket. -/
theorem C4_amended (v : String) :
    (strIncludes (strToLower v) "buy" = true →
      Frontend.getVerdictStyle v = "bg-green-500 text-white" ∧
      Content.verdictClass v = "buy" ∧ Popup.verdictClass v = "buy") ∧
    (strIncludes (strToLower v) "buy" = false →
      strIncludes (strToLower v) "wait" = true →
      Frontend.getVerdictStyle v = "bg-yellow-500 text-white" ∧
      Content.verdictClass v = "wait" ∧ Popup.verdictClass v = "wait") ∧
    (strIncludes (strToLower v) "buy" = false →
      strIncludes (strToLower v) "wait" = false →
      strIncludes (strToLower v) "skip" = true →
      Frontend.getVerdictStyle v = "bg-red-500 text-white" ∧
      Content.verdictClass v = "skip" ∧ Popup.verdictClass v = "skip") ∧
    (strIncludes (strToLower v) "buy" = false →
      strIncludes (strToLower v) "wait" = false →
      strIncludes (strToLower v) "skip" = false →
      Frontend.getVerdictStyle v = "bg-gray-500 text-white" ∧
      Content.verdictClass v = "skip" ∧ Popup.verdictClass v = "skip") := by
  refine ⟨fun h1 => ?_, fun h1 h2 => ?_, fun h1 h2 h3 => ?_, fun h1 h2 h3 => ?_⟩ <;>
    simp [Frontend.getVerdictStyle, Content.verdictClass, Popup.verdictClass, *]

/-- Concrete instance of `C4_amended`: a verdict containing both `buy`
and `skip` resolves to the `Buy` bucket on all three surfaces (first
match wins). -/
theorem C4_amended_witness :
    Frontend.getVerdictStyle "Buy it, or skip it?" = "bg-green-500 text-white" ∧
    Content.verdictClass "Buy it, or skip it?" = "buy" ∧
    Popup.verdictClass "Buy it, or skip it?" = "buy" :=
  (C4_amended "Buy it, or skip it?").1 (by decide)

/-! ## Claim C5 -/

/-- Claim C5 fails as stated: the rendered bar widths are not clamped.
An `impulse_score` of 150 produces a popup score-bar width of 150 (%),
a score of −5 a negative width, and an `impulse_factors` value of 60
produces a web-app factor-bar width of 200 (%), outside the 0–100 range
that a [0,30]-of-30 fraction would give. -/
theorem C5_counterexample :
    Popup.scoreFillWidth 150 = 150 ∧ ¬ (Popup.scoreFillWidth 150 ≤ 100) ∧
    Popup.scoreFillWidth (-5) = -5 ∧ ¬ (0 ≤ Popup.scoreFillWidth (-5)) ∧
    Frontend.factorBarWidth 60 = 200 ∧ ¬ (Frontend.factorBarWidth 60 ≤ 100) := by
  norm_num [Popup.scoreFillWidth, Frontend.factorBarWidth,
    Frontend.factorPercentage]

/-- Claim C5 (amended): the presentation never crashes (every mapping is
total) and the risk-colour band is always one of its four colours, with
out-of-range scores absorbed into the extreme bands; but the bar widths
are not clamped: the score bar width is the raw score, and the factor
bar width is `max 5 (v/30·100)` — a 5% visibility floor with no
ceiling, so only in-range factor values yield in-range widths. -/
theorem C5_amended (s : Int) (v : Int) :
    Popup.scoreFillWidth s = s ∧ Frontend.scoreFillWidth s = s ∧
    (Popup.getScoreColor s = "#f44336" ∨ Popup.getScoreColor s = "#ff9800" ∨
     Popup.getScoreColor s = "#ffc107" ∨ Popup.getScoreColor s = "#4caf50") ∧
    (s < 40 → Popup.getScoreColor s = "#4caf50") ∧
    (80 ≤ s → Popup.getScoreColor s = "#f44336") ∧
    5 ≤ Frontend.factorBarWidth v ∧
    (0 ≤ v → v ≤ 30 → Frontend.factorBarWidth v ≤ 100) := by
  refine ⟨rfl, rfl, ?_, ?_, ?_, le_max_left 5 _, ?_⟩
  · by_cases h80 : 80 ≤ s
    · exact Or.inl (by simp [Popup.getScoreColor, h80])
    · by_cases h60 : 60 ≤ s
      · exact Or.inr (Or.inl (by simp [Popup.getScoreColor, h80, h60]))
      · by_cases h40 : 40 ≤ s
        · exact Or.inr (Or.inr (Or.inl (by simp [Popup.getScoreColor, h80, h60, h40])))
        · exact Or.inr (Or.inr (Or.inr (by simp [Popup.getScoreColor, h80, h60, h40])))
  · intro h
    have h80 : ¬ (80 ≤ s) := by omega
    have h60 : ¬ (60 ≤ s) := by omega
    have h40 : ¬ (40 ≤ s) := by omega
    simp [Popup.getScoreColor, h80, h60, h40]
  · intro h
    simp [Popup.getScoreColor, h]
  · intro h0 h30
    have hv : (v : ℚ) ≤ 30 := by exact_mod_cast h30
    have : Frontend.factorPercentage v ≤ 100 := by
      rw [Frontend.factorPercentage]
      nlinarith
    exact max_le (by norm_num) this

/-- Concrete instance of `C5_amended`: a below-range score maps to the
safe colour band and an in-range factor value to an in-range width. -/
theorem C5_amended_witness :
    Popup.getScoreColor (-5) = "#4caf50" ∧ Frontend.factorBarWidth 15 ≤ 100 :=
  ⟨(C5_amended (-5) 15).2.2.2.1 (by norm_num),
   (C5_amended (-5) 15).2.2.2.2.2.2 (by norm_num) (by norm_num)⟩

/-! ## Claim C6 -/

/-- Claim C6 fails as stated: on the all-equal history `[(d1,50),(d2,50)]`
the price range is 0 and every vertical position is the non-finite result
of dividing by zero (`none`, the JS value being NaN) — not a constant
midline; and the single-point horizontal position `0/(1−1)` is equally
non-finite, so a single point does not render as a well-defined dot. -/
theorem C6_counterexample :
    Frontend.chartPoints [⟨"d1", 50⟩, ⟨"d2", 50⟩]
      = [(some 0, none), (some 100, none)] ∧
    Frontend.chartX 0 1 = none := by
  constructor
  · norm_num [Frontend.chartPoints, Frontend.chartX, Frontend.chartY, jsDiv,
      Frontend.minPrice, Frontend.maxPrice, Frontend.priceRange, List.range_succ]
  · norm_num [Frontend.chartX, jsDiv]

/-- Claim C6 (amended): there is no flat-history guard. Whenever the
price range is zero (as it is for any all-equal history) the vertical
position computation divides by zero and yields a non-finite value
(`none`/NaN) for every point, and a single-point sequence yields a
non-finite horizontal position — the code does not crash, but it renders
NaN coordinates instead of a midline or a dot. -/
theorem C6_amended :
    (∀ a : ℚ, Frontend.priceRange [a, a] = 0) ∧
    (∀ p m : ℚ, Frontend.chartY p m 0 = none) ∧
    (∀ i : ℕ, Frontend.chartX i 1 = none) := by
  refine ⟨fun a => ?_, fun p m => ?_, fun i => ?_⟩
  · simp [Frontend.priceRange, Frontend.maxPrice, Frontend.minPrice]
  · simp [Frontend.chartY, jsDiv]
  · simp [Frontend.chartX, jsDiv]

/-! ## Claim C7 -/

/-- Claim C7 (confirmed): with at least two points and a strictly
positive price range, every point's vertical position is exactly
`100 − ((price − min)/(max − min))·100`, so the minimum-price point sits
at the baseline (100, bottom in the top-down SVG frame) and the
maximum-price point at the top (0), every vertical position lies in
[0,100], and the horizontal position is the index fraction
`(i/(n−1))·100` across the sequence. -/
theorem C7_confirmed (prices : List ℚ) (p : ℚ) (i n : ℕ)
    (hp : p ∈ prices)
    (hlt : Frontend.minPrice prices < Frontend.maxPrice prices)
    (hn : 2 ≤ n) :
    Frontend.chartY p (Frontend.minPrice prices) (Frontend.priceRange prices)
      = some (100 - ((p - Frontend.minPrice prices) /
          (Frontend.maxPrice prices - Frontend.minPrice prices)) * 100) ∧
    (p = Frontend.minPrice prices →
      Frontend.chartY p (Frontend.minPrice prices) (Frontend.priceRange prices)
        = some 100) ∧
    (p = Frontend.maxPrice prices →
      Frontend.chartY p (Frontend.minPrice prices) (Frontend.priceRange prices)
        = some 0) ∧
    (∀ y, Frontend.chartY p (Frontend.minPrice prices) (Frontend.priceRange prices)
        = some y → 0 ≤ y ∧ y ≤ 100) ∧
    Frontend.chartX i n = some (((i : ℚ) / ((n : ℚ) - 1)) * 100) := by
  have hpos : 0 < Frontend.maxPrice prices - Frontend.minPrice prices :=
    sub_pos.mpr hlt
  have hne : Frontend.maxPrice prices - Frontend.minPrice prices ≠ 0 :=
    ne_of_gt hpos
  have hform :
      Frontend.chartY p (Frontend.minPrice prices) (Frontend.priceRange prices)
        = some (100 - ((p - Frontend.minPrice prices) /
            (Frontend.maxPrice prices - Frontend.minPrice prices)) * 100) := by
    simp [Frontend.chartY, jsDiv, Frontend.priceRange, hne]
  refine ⟨hform, ?_, ?_, ?_, ?_⟩
  · rintro rfl
    rw [hform]
    simp
  · rintro rfl
    rw [hform]
    rw [div_self hne]
    norm_num
  · intro y hy
    rw [hform] at hy
    have hy' : y = 100 - ((p - Frontend.minPrice prices) /
        (Frontend.maxPrice prices - Frontend.minPrice prices)) * 100 :=
      (Option.some.injEq .. ▸ hy).symm
    have h0 : 0 ≤ (p - Frontend.minPrice prices) /
        (Frontend.maxPrice prices - Frontend.minPrice prices) :=
      div_nonneg (sub_nonneg.mpr (minPrice_le_mem prices p hp)) (le_of_lt hpos)
    have h1 : (p - Frontend.minPrice prices) /
        (Frontend.maxPrice prices - Frontend.minPrice prices) ≤ 1 :=
      (div_le_one hpos).mpr (sub_le_sub_right (mem_le_maxPrice prices p hp) _)
    constructor <;> nlinarith
  · have hden : ((n : ℚ) - 1) ≠ 0 := by
      have : (2 : ℚ) ≤ (n : ℚ) := by exact_mod_cast hn
      nlinarith
    simp [Frontend.chartX, jsDiv, hden]

/-- Concrete instance of `C7_confirmed` on the spec's example
`[(d1,100),(d2,150),(d3,100)]`: the minimum renders at the baseline, the
maximum at the top, and the middle index at 50%. -/
theorem C7_confirmed_witness :
    Frontend.chartY 100 (Frontend.minPrice [100, 150, 100])
      (Frontend.priceRange [100, 150, 100]) = some 100 ∧
    Frontend.chartY 150 (Frontend.minPrice [100, 150, 100])
      (Frontend.priceRange [100, 150, 100]) = some 0 ∧
    Frontend.chartX 1 3 = some 50 := by
  have hmin : Frontend.minPrice [(100 : ℚ), 150, 100] = 100 := by
    norm_num [Frontend.minPrice]
  have hmax : Frontend.maxPrice [(100 : ℚ), 150, 100] = 150 := by
    norm_num [Frontend.maxPrice]
  have hlt : Frontend.minPrice [(100 : ℚ), 150, 100]
      < Frontend.maxPrice [(100 : ℚ), 150, 100] := by
    rw [hmin, hmax]; norm_num
  refine ⟨(C7_confirmed [100, 150, 100] 100 1 3 (by norm_num) hlt
      (by norm_num)).2.1 hmin.symm,
    (C7_confirmed [100, 150, 100] 150 1 3 (by norm_num) hlt
      (by norm_num)).2.2.1 hmax.symm, ?_⟩
  rw [(C7_confirmed [100, 150, 100] 150 1 3 (by norm_num) hlt
      (by norm_num)).2.2.2.2]
  norm_num

/-! ## Claim C8 -/

/-- Claim C8 (confirmed): on every exit of an analysis run — success,
HTTP error with or without detail, or any exception — the `finally`
blocks restore the triggering control: the content-script button, made
non-interactive for the duration of the fetch, is interactive again at
the end of every run, and the web app's `loading` flag (which disables
its Analyze button) and the popup's loading indicator are cleared at the
end of every run. -/
theorem C8_confirmed (url : String) (resp : FetchResult) :
    (Content.analyzeCurrentProduct resp).buttonInteractiveDuringFetch = false ∧
    (Content.analyzeCurrentProduct resp).buttonInteractiveAtEnd = true ∧
    (Frontend.analyzeProduct url resp).loadingAtEnd = false ∧
    (Popup.analyzeProduct url resp).loadingAtEnd = false := by
  refine ⟨rfl, rfl, ?_, ?_⟩
  · rcases h : Frontend.validateUrl url with _ | e
    · cases resp with
      | ok data => simp [Frontend.analyzeProduct, h]
      | httpError st detail => cases detail <;> simp [Frontend.analyzeProduct, h]
      | jsError m => simp [Frontend.analyzeProduct, h]
    · simp [Frontend.analyzeProduct, h]
  · by_cases h : Popup.isAmazonURL url = false
    · simp [Popup.analyzeProduct, h]
    · cases resp with
      | ok data => simp [Popup.analyzeProduct, h]
      | httpError st detail => cases detail <;> simp [Popup.analyzeProduct, h]
      | jsError m => simp [Popup.analyzeProduct, h]

/-! ## Claim C9 -/

/-- Claim C9 fails as stated: two URL changes observed before any settle
timer fires leave two re-evaluations pending simultaneously — nothing is
cancelled, so pending re-evaluations stack rather than being replaced. -/
theorem C9_counterexample :
    (Content.observeMutation
      (Content.observeMutation ⟨"https://amazon.com/dp/A", 0⟩
        "https://amazon.com/dp/B")
      "https://amazon.com/dp/C").pendingTimers = 2 := by decide

/-- Claim C9 (amended): the watcher performs no cancellation. Every
mutation event whose URL differs from the last observed one schedules an
additional 1000 ms re-evaluation (the pending count increases by one,
whatever it already was), and an event with an unchanged URL schedules
nothing; so multiple re-evaluations can be pending at once. -/
theorem C9_amended (s : Content.WatcherState) (u : String) :
    (u ≠ s.lastUrl →
      Content.observeMutation s u
        = { lastUrl := u, pendingTimers := s.pendingTimers + 1 }) ∧
    (u = s.lastUrl → Content.observeMutation s u = s) := by
  constructor <;> intro h <;> simp [Content.observeMutation, h]

/-- Concrete instance of `C9_amended`: one URL change schedules one
pending re-evaluation. -/
theorem C9_amended_witness :
    Content.observeMutation ⟨"https://amazon.com/dp/A", 0⟩
      "https://amazon.com/dp/B" = ⟨"https://amazon.com/dp/B", 1⟩ :=
  (C9_amended ⟨"https://amazon.com/dp/A", 0⟩ "https://amazon.com/dp/B").1
    (by decide)

/-! ## Claim C10 -/

/-- Claim C10 (confirmed): the web app's success path instantiates
`DealAnalysisCard` unconditionally and the card dereferences
`dealAnalysis.quality` and `inflationAnalysis.inflation_detected`, so an
`AnalysisResult` lacking either optional field makes the whole success
render throw a `TypeError` instead of displaying the rest of the result;
with both fields present the render succeeds. -/
theorem C10_confirmed (a : AnalysisResult) :
    (a.deal_analysis = none ∨ a.inflation_analysis = none →
      ∃ e, Frontend.renderAnalysis a = .error e) ∧
    (∀ da ia, a.deal_analysis = some da → a.inflation_analysis = some ia →
      ∃ out, Frontend.renderAnalysis a = .ok out) := by
  constructor
  · rintro (h | h)
    · refine ⟨"TypeError: cannot read quality of undefined", ?_⟩
      simp [Frontend.renderAnalysis, Frontend.DealAnalysisCard, h]
    · rcases hd : a.deal_analysis with _ | da
      · refine ⟨"TypeError: cannot read quality of undefined", ?_⟩
        simp [Frontend.renderAnalysis, Frontend.DealAnalysisCard, hd]
      · refine ⟨"TypeError: cannot read inflation_detected of undefined", ?_⟩
        simp [Frontend.renderAnalysis, Frontend.DealAnalysisCard, hd, h]
  · intro da ia hd hi
    simp only [Frontend.renderAnalysis, Frontend.DealAnalysisCard, hd, hi]
    exact ⟨_, rfl⟩

/-- Concrete instance of `C10_confirmed`: the fixture without
`deal_analysis` fails to render. -/
theorem C10_confirmed_witness :
    ∃ e, Frontend.renderAnalysis sampleNoDeal = Except.error e :=
  (C10_confirmed sampleNoDeal).1 (Or.inl rfl)

end WhyImpulse
